import Mathlib

/-!
Verification of the glio library (a PyTorch utility / training-loop library)
against its natural-language specification.  Python source files are shallowly
embedded: pure helpers become Lean functions, stateful callbacks become
explicit state-passing functions, and calls into the external framework
(PyTorch autograd, optimizers, schedulers) are recorded as explicit traces.
-/

namespace Glio

/-! ## Embedding of `glio/train/cbs_default.py`

The default callbacks of the training loop.  A `Learner` holds the model, the
loss function, and the mutable attributes the callbacks read and write
(`preds`, `loss`, `accelerator`, `scheduler`, plus an opaque remainder `rest`
standing for every other attribute).  Calls into the external framework are
not performed but recorded in a trace of `FrameworkCall`s. -/

/-- A call into the external deep-learning framework, as performed by the
default callbacks in `cbs_default.py`. -/
inductive FrameworkCall where
  /-- The call `learner.loss.backward()` -/
  | lossBackward
  /-- The call `learner.accelerator.backward(learner.loss)` -/
  | acceleratorBackward
  /-- The call `learner.optimizer.step(*args, **kwargs)` -/
  | optimizerStep
  /-- The call `learner.optimizer.zero_grad()` -/
  | zeroGrad
  /-- The call `learner.scheduler.step()` -/
  | schedulerStep
  deriving DecidableEq, Repr

/-- The `Learner` object of `glio/train/Learner.py`, restricted to the
attributes the default callbacks touch.  `V` is the type of framework values
(tensors); `model` and `loss_fn` are the framework modules held by the
learner, embedded as plain functions.  `rest` stands for all remaining
attributes, so that "no other attribute changes" is expressible. -/
structure Learner (V : Type) where
  model : V → V
  loss_fn : V → V → V
  preds : Option V
  loss : Option V
  accelerator : Option Unit
  scheduler : Option Unit
  rest : Nat

/-- Method `DefaultForwardCB.__call__`: stores `learner.model(inputs)` into
`learner.preds` and returns it. -/
def DefaultForwardCB {V : Type} (learner : Learner V) (inputs : V) :
    Learner V × V :=
  let p := learner.model inputs
  ({ learner with preds := some p }, p)

/-- Method `DefaultGetLossCB.__call__`: stores `learner.loss_fn(preds, targets)` into
`learner.loss` and returns it. -/
def DefaultGetLossCB {V : Type} (learner : Learner V) (preds targets : V) :
    Learner V × V :=
  let l := learner.loss_fn preds targets
  ({ learner with loss := some l }, l)

/-- Method `DefaultBackwardCB.__call__`: `learner.loss.backward()` when the
accelerator is absent, `learner.accelerator.backward(learner.loss)` otherwise.
Returns the unchanged learner and the framework calls performed. -/
def DefaultBackwardCB {V : Type} (learner : Learner V) :
    Learner V × List FrameworkCall :=
  match learner.accelerator with
  | none => (learner, [FrameworkCall.lossBackward])
  | some _ => (learner, [FrameworkCall.acceleratorBackward])

/-- Method `DefaultOptimizerStepCB.__call__`: `learner.optimizer.step(*args, **kwargs)`. -/
def DefaultOptimizerStepCB {V : Type} (learner : Learner V) :
    Learner V × List FrameworkCall :=
  (learner, [FrameworkCall.optimizerStep])

/-- Method `DefaultZeroGradCB.__call__`: `learner.optimizer.zero_grad()`. -/
def DefaultZeroGradCB {V : Type} (learner : Learner V) :
    Learner V × List FrameworkCall :=
  (learner, [FrameworkCall.zeroGrad])

/-- Method `DefaultSchedulerStepCB.__call__`: `learner.scheduler.step()` exactly when
`learner.scheduler is not None`. -/
def DefaultSchedulerStepCB {V : Type} (learner : Learner V) :
    Learner V × List FrameworkCall :=
  match learner.scheduler with
  | none => (learner, [])
  | some _ => (learner, [FrameworkCall.schedulerStep])

/-- The training-loop phases `DefaultOneBatchCB.__call__` dispatches to
(each `learner.<phase>()` call goes through the event table to the
corresponding default callback). -/
inductive Phase where
  /-- The call `learner.train()` -/
  | train
  /-- The call `learner.forward(inputs)` -/
  | forward
  /-- The call `learner.get_loss(learner.preds, targets)` -/
  | getLoss
  /-- The call `learner.zero_grad()` -/
  | zeroGrad
  /-- The call `learner.backward()` -/
  | backward
  /-- The call `learner.optimizer_step()` -/
  | optimizerStep
  /-- The call `learner.scheduler_step()` -/
  | schedulerStep
  deriving DecidableEq, Repr

/-- The sequence of phases invoked by one call of
`DefaultOneBatchCB.__call__(learner, inputs, targets, train)`, read off the
body of the method: `learner.train()`, then (inside `nullcontext()` when
training, `torch.no_grad()` otherwise) `forward`, `get_loss`, and when
`train` also `zero_grad`, `backward`, `optimizer_step`, `scheduler_step`. -/
def DefaultOneBatchCB (train : Bool) : List Phase :=
  [Phase.train] ++ [Phase.forward, Phase.getLoss] ++
    (if train then
      [Phase.zeroGrad, Phase.backward, Phase.optimizerStep, Phase.schedulerStep]
     else [])

/-! ## Embedding of `glio/torch_tools.py` -/

/-- A torch device (`torch.device`). -/
inductive Device where
  | cpu
  | cuda (index : Nat)
  deriving DecidableEq, Repr

/-- A Python value as seen by the recursive tensor helpers of
`torch_tools.py`: a tensor (with its device, a flag for being attached to the
autograd graph, its element count and its scalar content), a list, a tuple, a
Python float, or any other value (opaque tag). -/
inductive PyVal where
  | tensor (device : Device) (grad : Bool) (numel : Nat) (val : Int)
  | pylist (xs : List PyVal)
  | pytuple (xs : List PyVal)
  | pyfloat (val : Int)
  | other (tag : Nat)

mutual

/-- Function `to_device(x, device)`: recursively moves `x` or its elements to
`device` when possible; `if device is None: return x`. -/
def to_device : PyVal → Option Device → PyVal
  | x, none => x
  | PyVal.tensor _ g n v, some d => PyVal.tensor d g n v
  | PyVal.pylist xs, some d => PyVal.pylist (to_device_elems xs (some d))
  | PyVal.pytuple xs, some d => PyVal.pylist (to_device_elems xs (some d))
  | x, some _ => x

/-- The list comprehension `[to_device(i, device) for i in x]`. -/
def to_device_elems : List PyVal → Option Device → List PyVal
  | [], _ => []
  | x :: xs, d => to_device x d :: to_device_elems xs d

end

mutual

/-- Function `smart_detach(x)`: recursively detaches `x` or its elements from the
autograd graph (`x.detach()`). -/
def smart_detach : PyVal → PyVal
  | PyVal.tensor d _ n v => PyVal.tensor d false n v
  | PyVal.pylist xs => PyVal.pylist (smart_detach_elems xs)
  | PyVal.pytuple xs => PyVal.pylist (smart_detach_elems xs)
  | x => x

/-- The list comprehension `[smart_detach(i) for i in x]`. -/
def smart_detach_elems : List PyVal → List PyVal
  | [] => []
  | x :: xs => smart_detach x :: smart_detach_elems xs

end

mutual

/-- Function `smart_to_cpu(x)`: recursively moves `x` or its elements to the CPU
(`x.cpu()`). -/
def smart_to_cpu : PyVal → PyVal
  | PyVal.tensor _ g n v => PyVal.tensor Device.cpu g n v
  | PyVal.pylist xs => PyVal.pylist (smart_to_cpu_elems xs)
  | PyVal.pytuple xs => PyVal.pylist (smart_to_cpu_elems xs)
  | x => x

/-- The list comprehension `[smart_to_cpu(i) for i in x]`. -/
def smart_to_cpu_elems : List PyVal → List PyVal
  | [] => []
  | x :: xs => smart_to_cpu x :: smart_to_cpu_elems xs

end

mutual

/-- Function `smart_detach_cpu(x)`: recursively applies `x.detach().cpu()` to `x` or
its elements. -/
def smart_detach_cpu : PyVal → PyVal
  | PyVal.tensor _ _ n v => PyVal.tensor Device.cpu false n v
  | PyVal.pylist xs => PyVal.pylist (smart_detach_cpu_elems xs)
  | PyVal.pytuple xs => PyVal.pylist (smart_detach_cpu_elems xs)
  | x => x

/-- The list comprehension `[smart_detach_cpu(i) for i in x]`. -/
def smart_detach_cpu_elems : List PyVal → List PyVal
  | [] => []
  | x :: xs => smart_detach_cpu x :: smart_detach_cpu_elems xs

end

mutual

/-- Function `smart_to_float(x)`: when `isinstance(x, torch.Tensor) and x.numel() == 1`,
returns `float(x.detach().cpu())`; recurses on lists and tuples; returns any
other value (including a tensor with more than one element) unchanged. -/
def smart_to_float : PyVal → PyVal
  | PyVal.tensor d g n v =>
      if n = 1 then PyVal.pyfloat v else PyVal.tensor d g n v
  | PyVal.pylist xs => PyVal.pylist (smart_to_float_elems xs)
  | PyVal.pytuple xs => PyVal.pylist (smart_to_float_elems xs)
  | x => x

/-- The list comprehension `[smart_to_float(i) for i in x]`. -/
def smart_to_float_elems : List PyVal → List PyVal
  | [] => []
  | x :: xs => smart_to_float x :: smart_to_float_elems xs

end

/-! ### `FreezeModel`

The model's parameters are represented by the list of their `requires_grad`
flags, in the order `model.parameters()` yields them (the claim's hypothesis
is that this order is stable across calls). -/

/-- The state of a `FreezeModel` instance: the current `requires_grad` flags
of the model's parameters, the saved `original_requires_grads` list, and the
`frozen` flag. -/
structure FreezeModel where
  flags : List Bool
  original_requires_grads : List Bool
  frozen : Bool
  deriving DecidableEq, Repr

/-- Method `FreezeModel.__init__(model)`: iterates over `model.parameters()`,
appending each parameter's `requires_grad` to `original_requires_grads` and
setting it to `False`; finally sets `frozen = True`. -/
def FreezeModel.init (params : List Bool) : FreezeModel :=
  { flags := params.map (fun _ => false)
    original_requires_grads := params
    frozen := true }

/-- The loop of `FreezeModel.unfreeze`:
`for i, param in enumerate(self.model.parameters()):
param.requires_grad = self.original_requires_grads[i]`.
Returns `none` on the `IndexError` raised when the saved list is shorter than
the parameter list. -/
def FreezeModel.unfreezeLoop : List Bool → List Bool → Option (List Bool)
  | [], _ => some []
  | _ :: _, [] => none
  | _ :: ps, s :: saved => (FreezeModel.unfreezeLoop ps saved).map (s :: ·)

/-- Method `FreezeModel.unfreeze()`: restores each parameter's `requires_grad` from
`original_requires_grads` by index, then sets `frozen = False`. -/
def FreezeModel.unfreeze (m : FreezeModel) : Option FreezeModel :=
  (FreezeModel.unfreezeLoop m.flags m.original_requires_grads).map fun fl =>
    { m with flags := fl, frozen := false }

/-! ### `seeded_rng`

The context manager saves the torch, numpy and python RNG states, seeds all
three, runs the body, and restores the saved states; with `seed=None` it only
runs the body.  The RNG state types are abstract; the body is a function on
the combined RNG state. -/

/-- The combined RNG state of the process: torch, numpy, and python `random`. -/
structure RNGState (T N P : Type) where
  torch : T
  numpy : N
  python : P

/-- Running `with seeded_rng(seed): body` for a body that completes without raising.
`torchSeed`, `numpySeed`, `pythonSeed` embed `torch.manual_seed`,
`np.random.seed`, `random.seed`.  When `seed is None` the manager only yields;
otherwise it saves the three states, seeds, yields, and restores the saved
states. -/
def seeded_rng {T N P : Type} (seed : Option Nat)
    (torchSeed : Nat → T) (numpySeed : Nat → N) (pythonSeed : Nat → P)
    (body : RNGState T N P → RNGState T N P)
    (s : RNGState T N P) : RNGState T N P :=
  match seed with
  | none => body s
  | some k =>
      let torch_state := s.torch
      let numpy_state := s.numpy
      let python_state := s.python
      let seeded : RNGState T N P :=
        { torch := torchSeed k, numpy := numpySeed k, python := pythonSeed k }
      let _after := body seeded
      { torch := torch_state, numpy := numpy_state, python := python_state }

/-! ### `copy_state_dict`, `BackupModule`

A state-dict value is a tensor, a nested dict, or some other value.  Tensor
identity (which live tensor object an entry references) is modelled by a
numeric id; `v.detach().clone()` allocates a fresh tensor, so the embedding
threads a supply of fresh ids.  `try_copy` comes from `glio/python_tools.py`,
which is not part of the sources; it only touches non-tensor, non-dict
values, so it is abstracted as a parameter acting on their tags. -/

/-- A value of a `state_dict`. -/
inductive SDVal where
  | tensor (id : Nat)
  | dict (entries : List (String × SDVal))
  | other (tag : Nat)

mutual

/-- Function `copy_state_dict(state_dict)`: tensors are replaced by
`v.detach().clone()` (a freshly allocated tensor: a fresh id), nested dicts
are copied recursively, other values go through `try_copy` (abstracted as
`tryCopy` on their tags).  Returns the copy and the next fresh id. -/
def copy_state_dict (tryCopy : Nat → Nat) (fresh : Nat) :
    SDVal → SDVal × Nat
  | SDVal.tensor _ => (SDVal.tensor fresh, fresh + 1)
  | SDVal.dict es =>
      let (es', f) := copy_state_dict_entries tryCopy fresh es
      (SDVal.dict es', f)
  | SDVal.other tag => (SDVal.other (tryCopy tag), fresh)

/-- The dict comprehension of `copy_state_dict`, over `state_dict.items()`. -/
def copy_state_dict_entries (tryCopy : Nat → Nat) (fresh : Nat) :
    List (String × SDVal) → List (String × SDVal) × Nat
  | [] => ([], fresh)
  | (k, v) :: es =>
      let (v', f1) := copy_state_dict tryCopy fresh v
      let (es', f2) := copy_state_dict_entries tryCopy f1 es
      ((k, v') :: es', f2)

end

mutual

/-- The ids of all tensors reachable from a state-dict value. -/
def SDVal.tensorIds : SDVal → List Nat
  | SDVal.tensor i => [i]
  | SDVal.dict es => SDVal.tensorIdsEntries es
  | SDVal.other _ => []

/-- The ids of all tensors reachable from a list of dict entries. -/
def SDVal.tensorIdsEntries : List (String × SDVal) → List Nat
  | [] => []
  | (_, v) :: es => v.tensorIds ++ SDVal.tensorIdsEntries es

end

/-- A `BackupModule` instance: it keeps a reference to the model (represented
by the model's live state dict) and `self.state_dict`, the copy made by
`copy_state_dict(model.state_dict())` in `__init__`. -/
structure BackupModule where
  modelStateDict : SDVal
  state_dict : SDVal

/-- Method `BackupModule.__init__(model)`: stores the model and
`copy_state_dict(model.state_dict())`. -/
def BackupModule.init (tryCopy : Nat → Nat) (fresh : Nat) (modelSD : SDVal) :
    BackupModule × Nat :=
  let (c, f) := copy_state_dict tryCopy fresh modelSD
  ({ modelStateDict := modelSD, state_dict := c }, f)

/-! ### Exception behaviour (`lr_finder_fn`, `lr_finder`, `one_hot_mask`) -/

/-- A Python exception raised or caught by `torch_tools.py`. -/
inductive PyExc where
  | valueError (msg : String)
  | notImplementedError (msg : String)
  | keyboardInterrupt
  deriving DecidableEq, Repr

/-- The argument check of `lr_finder_fn`:
`if end is None and max_increase is None: raise ValueError(...)`. -/
def lr_finder_fn_check {α β : Type} (endVal : Option α)
    (max_increase : Option β) : Except PyExc Unit :=
  match endVal, max_increase with
  | none, none =>
      Except.error (PyExc.valueError
        "Укажите хотя-бы один аргумент из `end` или `max_increase`.")
  | _, _ => Except.ok ()

/-- The dimension dispatch of `one_hot_mask`: ndim 3 and 2 are handled,
anything else raises `NotImplementedError`. -/
def one_hot_mask_ndim (ndim : Nat) : Except PyExc Unit :=
  if ndim = 3 then Except.ok ()
  else if ndim = 2 then Except.ok ()
  else Except.error (PyExc.notImplementedError
    ("one_hot_mask: mask.ndim = " ++ toString ndim))

/-- The `try ... except KeyboardInterrupt: pass` wrapper of `lr_finder`
around its iteration loop: a `KeyboardInterrupt` escaping the body is
swallowed, any other outcome propagates. -/
def lr_finder_catch (outcome : Option PyExc) : Option PyExc :=
  match outcome with
  | some PyExc.keyboardInterrupt => none
  | o => o

/-! ### `map_to_base`

`map_to_base(number, base)` computes
`(torch.tensor([number]) // base**(torch.arange(int(math.log(number) / math.log(base)), -1, -1))) % base`.
The subexpression `int(math.log(number) / math.log(base))` is IEEE-754
double-precision arithmetic; it is abstracted as the parameter `k` below, and
the intended (exact) value is `Nat.log base number`. -/

/-- The integer arithmetic of `map_to_base` given `k`, the value the code
computed for `int(math.log(number) / math.log(base))`: the digit list
`[(number // base**e) % base for e in [k, k-1, ..., 0]]`, and `[0]` when
`number == 0`. -/
def map_to_base (number base k : Nat) : List Nat :=
  if number = 0 then [0]
  else (List.range (k + 1)).reverse.map (fun e => number / base ^ e % base)

/-- Positional evaluation of a most-significant-first digit list. -/
def digitsToNat (base : Nat) (ds : List Nat) : Nat :=
  ds.foldl (fun acc d => acc * base + d) 0

/-- Discriminator: is this value a Python float? -/
def PyVal.isPyfloat : PyVal → Bool
  | PyVal.pyfloat _ => true
  | _ => false

/-! ## Helper lemmas -/

theorem to_device_elems_eq_map (xs : List PyVal) (d : Option Device) :
    to_device_elems xs d = xs.map (to_device · d) := by
  induction xs with
  | nil => rfl
  | cons x xs ih => simp [to_device_elems, ih]

theorem smart_detach_elems_eq_map (xs : List PyVal) :
    smart_detach_elems xs = xs.map smart_detach := by
  induction xs with
  | nil => rfl
  | cons x xs ih => simp [smart_detach_elems, ih]

theorem smart_to_cpu_elems_eq_map (xs : List PyVal) :
    smart_to_cpu_elems xs = xs.map smart_to_cpu := by
  induction xs with
  | nil => rfl
  | cons x xs ih => simp [smart_to_cpu_elems, ih]

theorem smart_detach_cpu_elems_eq_map (xs : List PyVal) :
    smart_detach_cpu_elems xs = xs.map smart_detach_cpu := by
  induction xs with
  | nil => rfl
  | cons x xs ih => simp [smart_detach_cpu_elems, ih]

theorem smart_to_float_elems_eq_map (xs : List PyVal) :
    smart_to_float_elems xs = xs.map smart_to_float := by
  induction xs with
  | nil => rfl
  | cons x xs ih => simp [smart_to_float_elems, ih]

theorem unfreezeLoop_map_false (params : List Bool) :
    FreezeModel.unfreezeLoop (params.map (fun _ => false)) params = some params := by
  induction params with
  | nil => rfl
  | cons p ps ih =>
      simp only [List.map_cons, FreezeModel.unfreezeLoop, ih, Option.map_some']

mutual

theorem copy_state_dict_ids_ge (tryCopy : Nat → Nat) (fresh : Nat) (sd : SDVal) :
    (∀ i ∈ ((copy_state_dict tryCopy fresh sd).1).tensorIds, fresh ≤ i) ∧
      fresh ≤ (copy_state_dict tryCopy fresh sd).2 := by
  cases sd with
  | tensor id =>
      exact ⟨by simp [copy_state_dict, SDVal.tensorIds], Nat.le_succ fresh⟩
  | dict es =>
      have h := copy_state_dict_entries_ids_ge tryCopy fresh es
      exact ⟨by simpa [copy_state_dict, SDVal.tensorIds] using h.1,
        by simpa [copy_state_dict] using h.2⟩
  | other tag =>
      exact ⟨by simp [copy_state_dict, SDVal.tensorIds], Nat.le_refl fresh⟩

theorem copy_state_dict_entries_ids_ge (tryCopy : Nat → Nat) (fresh : Nat)
    (es : List (String × SDVal)) :
    (∀ i ∈ SDVal.tensorIdsEntries (copy_state_dict_entries tryCopy fresh es).1,
        fresh ≤ i) ∧
      fresh ≤ (copy_state_dict_entries tryCopy fresh es).2 := by
  cases es with
  | nil => exact ⟨by simp [copy_state_dict_entries, SDVal.tensorIdsEntries],
      Nat.le_refl fresh⟩
  | cons kv es =>
      have hv := copy_state_dict_ids_ge tryCopy fresh kv.2
      have hes := copy_state_dict_entries_ids_ge tryCopy
        (copy_state_dict tryCopy fresh kv.2).2 es
      refine ⟨?_, ?_⟩
      · intro i hi
        simp only [copy_state_dict_entries, SDVal.tensorIdsEntries,
          List.mem_append] at hi
        rcases hi with hi | hi
        · exact hv.1 i hi
        · exact Nat.le_trans hv.2 (hes.1 i hi)
      · exact Nat.le_trans hv.2 (by simpa [copy_state_dict_entries] using hes.2)

end

/-! ## Claim theorems -/

/-- C1: `DefaultOneBatchCB.__call__` with `train=True` invokes the phases
forward, loss, backward, optimizer step, scheduler step in this fixed order,
each exactly once for the batch; with `train=False` of these phases only
forward and loss are invoked (no backward, no optimizer step, no scheduler
step). -/
theorem DefaultOneBatchCB_phase_sequence :
    ∀ t : Bool,
      (DefaultOneBatchCB t).count Phase.forward = 1 ∧
      (DefaultOneBatchCB t).count Phase.getLoss = 1 ∧
      (DefaultOneBatchCB t).count Phase.backward = (if t then 1 else 0) ∧
      (DefaultOneBatchCB t).count Phase.optimizerStep = (if t then 1 else 0) ∧
      (DefaultOneBatchCB t).count Phase.schedulerStep = (if t then 1 else 0) ∧
      (if t then
        [Phase.forward, Phase.getLoss, Phase.backward, Phase.optimizerStep,
          Phase.schedulerStep].Sublist (DefaultOneBatchCB t)
       else
        [Phase.forward, Phase.getLoss].Sublist (DefaultOneBatchCB t)) := by
  intro t
  cases t <;> decide

/-- C2: the default backward, optimizer-step and scheduler-step callbacks
leave every `Learner` attribute unchanged and only delegate to the framework:
`DefaultBackwardCB` performs `loss.backward()` when the accelerator is absent
and `accelerator.backward(loss)` otherwise; `DefaultOptimizerStepCB` performs
exactly `optimizer.step()`; `DefaultSchedulerStepCB` performs
`scheduler.step()` exactly when a scheduler is present and nothing
otherwise. -/
theorem default_step_cbs_delegate_only {V : Type} (l : Learner V) :
    (DefaultBackwardCB l).1 = l ∧
    ((DefaultBackwardCB l).2 =
      match l.accelerator with
      | none => [FrameworkCall.lossBackward]
      | some _ => [FrameworkCall.acceleratorBackward]) ∧
    (DefaultOptimizerStepCB l).1 = l ∧
    (DefaultOptimizerStepCB l).2 = [FrameworkCall.optimizerStep] ∧
    (DefaultSchedulerStepCB l).1 = l ∧
    ((DefaultSchedulerStepCB l).2 =
      match l.scheduler with
      | none => []
      | some _ => [FrameworkCall.schedulerStep]) := by
  obtain ⟨mo, lf, pr, lo, acc, sch, r⟩ := l
  cases acc <;> cases sch <;>
    simp [DefaultBackwardCB, DefaultOptimizerStepCB, DefaultSchedulerStepCB]

/-- C3: `DefaultForwardCB` stores `learner.model(inputs)` into
`learner.preds` and returns that value; `DefaultGetLossCB` stores
`learner.loss_fn(preds, targets)` into `learner.loss` and returns that value;
neither changes any other `Learner` attribute. -/
theorem default_forward_getloss_cbs {V : Type} (l : Learner V)
    (inputs preds targets : V) :
    (DefaultForwardCB l inputs).2 = l.model inputs ∧
    (DefaultForwardCB l inputs).1 = { l with preds := some (l.model inputs) } ∧
    (DefaultGetLossCB l preds targets).2 = l.loss_fn preds targets ∧
    (DefaultGetLossCB l preds targets).1 =
      { l with loss := some (l.loss_fn preds targets) } :=
  ⟨rfl, rfl, rfl, rfl⟩

/-- C4 counterexample: the library does raise exceptions of its own making
and does catch and suppress one: `lr_finder_fn` raises a `ValueError` of its
own when both `end` and `max_increase` are `None`; `one_hot_mask` raises
`NotImplementedError` for a 4-dimensional mask; `lr_finder` catches a
`KeyboardInterrupt` escaping its loop and suppresses it. -/
theorem library_raises_and_catches :
    lr_finder_fn_check (α := Int) (β := Int) none none =
      Except.error (PyExc.valueError
        "Укажите хотя-бы один аргумент из `end` или `max_increase`.") ∧
    one_hot_mask_ndim 4 =
      Except.error (PyExc.notImplementedError "one_hot_mask: mask.ndim = 4") ∧
    lr_finder_catch (some PyExc.keyboardInterrupt) = none :=
  ⟨rfl, rfl, rfl⟩

/-- C4 amended: errors are the underlying framework's exceptions propagating
uncaught, except that `lr_finder_fn` raises its own `ValueError` exactly when
both `end` and `max_increase` are `None`, `one_hot_mask` raises its own
`NotImplementedError` exactly when the mask dimension is neither 3 nor 2, and
`lr_finder` suppresses exactly `KeyboardInterrupt` while every other outcome
propagates. -/
theorem library_exception_behaviour :
    (∀ (endVal max_increase : Option Int),
      lr_finder_fn_check endVal max_increase = Except.ok () ↔
        ¬(endVal = none ∧ max_increase = none)) ∧
    (∀ n : Nat, one_hot_mask_ndim n = Except.ok () ↔ (n = 3 ∨ n = 2)) ∧
    (∀ o : Option PyExc,
      lr_finder_catch o = none ↔ (o = none ∨ o = some PyExc.keyboardInterrupt)) := by
  refine ⟨?_, ?_, ?_⟩
  · intro e mi
    cases e <;> cases mi <;> simp [lr_finder_fn_check]
  · intro n
    by_cases h3 : n = 3 <;> by_cases h2 : n = 2 <;>
      simp [one_hot_mask_ndim, h3, h2]
  · intro o
    cases o with
    | none => simp [lr_finder_catch]
    | some e => cases e <;> simp [lr_finder_catch]

/-- C5 counterexample: `BackupModule.__init__` creates and keeps an
independent deep copy of the model's state: for a model whose state dict
holds tensors 0 and 1, the kept `state_dict` holds freshly allocated tensors
2 and 3, sharing no tensor with the state the caller passed in. -/
theorem BackupModule_keeps_independent_copy :
    ((BackupModule.init id 2
        (SDVal.dict [("w", SDVal.tensor 0), ("b", SDVal.tensor 1)])).1.state_dict
      = SDVal.dict [("w", SDVal.tensor 2), ("b", SDVal.tensor 3)]) ∧
    (((BackupModule.init id 2
        (SDVal.dict [("w", SDVal.tensor 0), ("b", SDVal.tensor 1)])).1.state_dict.tensorIds).inter
      ((SDVal.dict [("w", SDVal.tensor 0), ("b", SDVal.tensor 1)]).tensorIds) = []) :=
  ⟨rfl, rfl⟩

/-- C5 amended: the library's persistent state is the framework's objects
mutated in place, except for the explicit backup facilities:
`copy_state_dict` (and hence `BackupModule`, which stores its result) creates
and keeps an independent deep copy of the state dict — the kept copy
references only freshly allocated tensors, none of the tensors of the state
the caller passed in. -/
theorem BackupModule_copy_is_fresh (tryCopy : Nat → Nat) (fresh : Nat)
    (sd : SDVal) (h : ∀ i ∈ sd.tensorIds, i < fresh) :
    (BackupModule.init tryCopy fresh sd).1.modelStateDict = sd ∧
    ((BackupModule.init tryCopy fresh sd).1.state_dict.tensorIds).inter
      sd.tensorIds = [] := by
  refine ⟨rfl, List.inter_eq_nil_iff_disjoint.mpr ?_⟩
  intro i hi hmem
  have hge : fresh ≤ i := (copy_state_dict_ids_ge tryCopy fresh sd).1 i hi
  exact absurd (h i hmem) (Nat.not_lt.mpr hge)

/-- C5 amended, witness at a concrete model state dict holding two tensors. -/
theorem BackupModule_copy_is_fresh_witness :
    (BackupModule.init id 2
        (SDVal.dict [("w", SDVal.tensor 0), ("b", SDVal.tensor 1)])).1.modelStateDict
      = SDVal.dict [("w", SDVal.tensor 0), ("b", SDVal.tensor 1)] ∧
    (((BackupModule.init id 2
        (SDVal.dict [("w", SDVal.tensor 0), ("b", SDVal.tensor 1)])).1.state_dict.tensorIds).inter
      ((SDVal.dict [("w", SDVal.tensor 0), ("b", SDVal.tensor 1)]).tensorIds)) = [] :=
  BackupModule_copy_is_fresh id 2
    (SDVal.dict [("w", SDVal.tensor 0), ("b", SDVal.tensor 1)])
    (by decide)

/-- C6 counterexample: `smart_to_float` does not apply its tensor operation
(conversion to a Python float) to every tensor: a tensor with two elements is
returned unchanged, not converted. -/
theorem smart_to_float_multielement_unchanged :
    smart_to_float (PyVal.tensor Device.cpu true 2 5) =
      PyVal.tensor Device.cpu true 2 5 ∧
    (smart_to_float (PyVal.tensor Device.cpu true 2 5)).isPyfloat = false :=
  ⟨rfl, rfl⟩

/-- C6 amended: each tensor helper is a recursive dispatch over the tensor
type — it applies its tensor operation to a tensor (`smart_to_float` only
when the tensor has exactly one element, returning other tensors unchanged),
recurses elementwise over lists and tuples preserving order and length, and
returns any other value unchanged; in particular `to_device(x, None) = x`
for every `x`. -/
theorem tensor_helpers_recursive_dispatch :
    (∀ x, to_device x none = x) ∧
    (∀ dev g n v d, to_device (PyVal.tensor dev g n v) (some d) =
      PyVal.tensor d g n v) ∧
    (∀ xs d, to_device (PyVal.pylist xs) (some d) =
      PyVal.pylist (xs.map (to_device · (some d)))) ∧
    (∀ xs d, to_device (PyVal.pytuple xs) (some d) =
      PyVal.pylist (xs.map (to_device · (some d)))) ∧
    (∀ v d, to_device (PyVal.pyfloat v) (some d) = PyVal.pyfloat v) ∧
    (∀ t d, to_device (PyVal.other t) (some d) = PyVal.other t) ∧
    (∀ dev g n v, smart_detach (PyVal.tensor dev g n v) =
      PyVal.tensor dev false n v) ∧
    (∀ xs, smart_detach (PyVal.pylist xs) = PyVal.pylist (xs.map smart_detach)) ∧
    (∀ xs, smart_detach (PyVal.pytuple xs) = PyVal.pylist (xs.map smart_detach)) ∧
    (∀ v, smart_detach (PyVal.pyfloat v) = PyVal.pyfloat v) ∧
    (∀ t, smart_detach (PyVal.other t) = PyVal.other t) ∧
    (∀ dev g n v, smart_to_cpu (PyVal.tensor dev g n v) =
      PyVal.tensor Device.cpu g n v) ∧
    (∀ xs, smart_to_cpu (PyVal.pylist xs) = PyVal.pylist (xs.map smart_to_cpu)) ∧
    (∀ xs, smart_to_cpu (PyVal.pytuple xs) = PyVal.pylist (xs.map smart_to_cpu)) ∧
    (∀ v, smart_to_cpu (PyVal.pyfloat v) = PyVal.pyfloat v) ∧
    (∀ t, smart_to_cpu (PyVal.other t) = PyVal.other t) ∧
    (∀ dev g n v, smart_detach_cpu (PyVal.tensor dev g n v) =
      PyVal.tensor Device.cpu false n v) ∧
    (∀ xs, smart_detach_cpu (PyVal.pylist xs) =
      PyVal.pylist (xs.map smart_detach_cpu)) ∧
    (∀ xs, smart_detach_cpu (PyVal.pytuple xs) =
      PyVal.pylist (xs.map smart_detach_cpu)) ∧
    (∀ v, smart_detach_cpu (PyVal.pyfloat v) = PyVal.pyfloat v) ∧
    (∀ t, smart_detach_cpu (PyVal.other t) = PyVal.other t) ∧
    (∀ dev g n v, smart_to_float (PyVal.tensor dev g n v) =
      if n = 1 then PyVal.pyfloat v else PyVal.tensor dev g n v) ∧
    (∀ xs, smart_to_float (PyVal.pylist xs) =
      PyVal.pylist (xs.map smart_to_float)) ∧
    (∀ xs, smart_to_float (PyVal.pytuple xs) =
      PyVal.pylist (xs.map smart_to_float)) ∧
    (∀ v, smart_to_float (PyVal.pyfloat v) = PyVal.pyfloat v) ∧
    (∀ t, smart_to_float (PyVal.other t) = PyVal.other t) := by
  refine ⟨fun x => ?_, fun dev g n v d => rfl, fun xs d => ?_, fun xs d => ?_,
    fun v d => rfl, fun t d => rfl,
    fun dev g n v => rfl, fun xs => ?_, fun xs => ?_, fun v => rfl, fun t => rfl,
    fun dev g n v => rfl, fun xs => ?_, fun xs => ?_, fun v => rfl, fun t => rfl,
    fun dev g n v => rfl, fun xs => ?_, fun xs => ?_, fun v => rfl, fun t => rfl,
    fun dev g n v => rfl, fun xs => ?_, fun xs => ?_, fun v => rfl, fun t => rfl⟩
  · cases x <;> rfl
  all_goals
    simp [to_device, smart_detach, smart_to_cpu, smart_detach_cpu,
      smart_to_float, to_device_elems_eq_map, smart_detach_elems_eq_map,
      smart_to_cpu_elems_eq_map, smart_detach_cpu_elems_eq_map,
      smart_to_float_elems_eq_map]

/-- C8: for every non-`None` seed, a `seeded_rng(seed)` block whose body
completes without raising restores the torch, numpy and python RNG states to
exactly the values they held on entry; for `seed=None` the manager performs
no RNG change of its own — the block's outcome is exactly the body's. -/
theorem seeded_rng_state_restoration {T N P : Type}
    (torchSeed : Nat → T) (numpySeed : Nat → N) (pythonSeed : Nat → P)
    (body : RNGState T N P → RNGState T N P) (s : RNGState T N P) :
    (∀ k : Nat, seeded_rng (some k) torchSeed numpySeed pythonSeed body s = s) ∧
    seeded_rng none torchSeed numpySeed pythonSeed body s = body s :=
  ⟨fun _ => rfl, rfl⟩

/-- C9: constructing `FreezeModel(model)` sets `requires_grad = False` on
every parameter (over the same number of parameters), and `unfreeze()`
restores each parameter's `requires_grad` to exactly its value before
construction: freeze followed by unfreeze is the identity on the
`requires_grad` flags. -/
theorem FreezeModel_freeze_unfreeze (params : List Bool) :
    (FreezeModel.init params).flags.all (fun b => !b) = true ∧
    (FreezeModel.init params).flags.length = params.length ∧
    (FreezeModel.init params).unfreeze =
      some { flags := params, original_requires_grads := params,
             frozen := false } := by
  refine ⟨?_, ?_, ?_⟩
  · simp [FreezeModel.init]
  · simp [FreezeModel.init]
  · simp only [FreezeModel.unfreeze, FreezeModel.init]
    rw [unfreezeLoop_map_false]
    rfl

/-- C10: evaluation of `map_to_base` at the failing input `number=1000`,
`base=10`.  On IEEE-754 doubles `math.log(1000) / math.log(10)` is
`2.9999999999999996`, so the code's exponent `int(...)` is 2 and the result
is `[0, 0, 0]`, which does not reconstruct 1000; with the exact logarithm
(`Nat.log 10 1000 = 3`, the intended value) the digits `[1, 0, 0, 0]` are
correct. -/
theorem map_to_base_float_log_failure :
    map_to_base 1000 10 2 = [0, 0, 0] ∧
    digitsToNat 10 (map_to_base 1000 10 2) = 0 ∧
    Nat.log 10 1000 = 3 ∧
    map_to_base 1000 10 (Nat.log 10 1000) = [1, 0, 0, 0] ∧
    digitsToNat 10 (map_to_base 1000 10 (Nat.log 10 1000)) = 1000 := by
  have hlog : Nat.log 10 1000 = 3 :=
    Nat.log_eq_of_pow_le_of_lt_pow (by norm_num) (by norm_num)
  refine ⟨by decide, by decide, hlog, ?_, ?_⟩
  · rw [hlog]; decide
  · rw [hlog]; decide

end Glio
